import Mathlib

/-!
Verification of the community-service controller
(`community-service/controllers/communityController.js`) of the
CircleConnect dockerization repository.

The controller is a CRUD layer over two tables:
`communities(id, name, language, description)` and
`user_communities(id, user_id, community_id, joined_at)` with a unique
`(user_id, community_id)` constraint.  We embed the tables as Lean lists
of rows and each HTTP handler as a pure function from a `Store` (plus the
request parameters the handler reads) to a `Response` together with the
updated `Store`.

Storage-layer failures (any `await`ed storage call throwing, caught by the
`try/catch` of each handler and turned into a 500) are modelled by an
optional `failAt : Option Nat` argument naming the index of the storage
call that throws; `none` means every storage call succeeds.
-/

namespace CircleConnect

/-- A row of the `communities` table, as defined by the Sequelize model
`Community` (`id` integer primary key, `name` string non-null, `language`
string optional, `description` text optional, no timestamps). -/
structure Community where
  id : Nat
  name : String
  language : Option String
  description : Option String
deriving Repr, DecidableEq

/-- A row of the `user_communities` table created by
`createUserCommunityModel`: `user_id`, `community_id`, and a `joined_at`
timestamp defaulted to the insertion time. The surrogate `id SERIAL`
column plays no role in any handler and is omitted. -/
structure Membership where
  user_id : Nat
  community_id : Nat
  joined_at : Nat
deriving Repr, DecidableEq

/-- A row of the external `users` table, restricted to the columns the
member-listing query selects (`u.id, u.name, u.email, u.profile_picture`). -/
structure User where
  id : Nat
  name : String
  email : String
  profile_picture : Option String
deriving Repr, DecidableEq

/-- The database state the controller works over. -/
structure Store where
  communities : List Community
  user_communities : List Membership
  users : List User
deriving Repr, DecidableEq

/-- One element of the array returned by `getCommunityMembers`:
`SELECT u.id, u.name, u.email, u.profile_picture, uc.joined_at`. -/
structure MemberRow where
  id : Nat
  name : String
  email : String
  profile_picture : Option String
  joined_at : Nat
deriving Repr, DecidableEq

/-- The JSON body of a controller response.  `errorObj msg` is the object
`\x7b error: msg \x7d`, `messageObj msg` is `\x7b message: msg \x7d`; the
other constructors carry entity payloads. -/
inductive Body where
  | errorObj (msg : String)
  | messageObj (msg : String)
  | communityObj (c : Community)
  | communityList (cs : List Community)
  | memberList (ms : List MemberRow)
deriving Repr, DecidableEq

/-- An HTTP response: status code and JSON body. -/
structure Response where
  status : Nat
  body : Body
deriving Repr, DecidableEq

/-- The authenticated caller resolved by the auth middleware
(`req.user`): its `id` and `role`. -/
structure Caller where
  id : Nat
  role : String
deriving Repr, DecidableEq

/-- Result of running a handler: the response sent and the store after. -/
structure HResult where
  resp : Response
  store : Store
deriving Repr, DecidableEq

/-- The body every `catch` block responds with:
`res.status(500).json(\x7b error: 'Internal server error' \x7d)`. -/
def internalErrorBody : Body := .errorObj "Internal server error"

/-- `Community.findByPk(id)`: the single `communities` row with that id,
or `none`. -/
def findByPk (st : Store) (id : Nat) : Option Community :=
  st.communities.find? (fun c => c.id == id)

/-- Whether a `user_communities` row matches a (user, community) pair. -/
def matchesPair (userId communityId : Nat) (m : Membership) : Bool :=
  m.user_id == userId && m.community_id == communityId

/-- The `user_communities` rows for a (user, community) pair. -/
def pairRows (st : Store) (userId communityId : Nat) : List Membership :=
  st.user_communities.filter (matchesPair userId communityId)

/-- The number of `user_communities` rows for a (user, community) pair. -/
def membershipCount (st : Store) (userId communityId : Nat) : Nat :=
  (pairRows st userId communityId).length

/-- The `INSERT INTO user_communities ... ON CONFLICT (user_id,
community_id) DO NOTHING` statement of `joinCommunity`: a single atomic
conflict-tolerant insert.  `now` is the database clock value that feeds
the `joined_at DEFAULT CURRENT_TIMESTAMP` column. -/
def insertMembershipIfAbsent (st : Store) (userId communityId now : Nat) : Store :=
  if st.user_communities.any (matchesPair userId communityId) then st
  else { st with user_communities := st.user_communities ++ [⟨userId, communityId, now⟩] }

/-- The `DELETE FROM user_communities WHERE user_id = :userId AND
community_id = :communityId` statement of `leaveCommunity`: the store
with the matching rows removed, paired with the affected-row count the
driver reports (`result[1]`). -/
def deleteMembership (st : Store) (userId communityId : Nat) : Store × Nat :=
  ({ st with user_communities :=
      st.user_communities.filter (fun m => !(matchesPair userId communityId m)) },
   membershipCount st userId communityId)

/-- Comparison used by the member-list query's `ORDER BY uc.joined_at ASC`. -/
def joinedAtLE (a b : MemberRow) : Prop := a.joined_at ≤ b.joined_at

instance : DecidableRel joinedAtLE := fun a b => Nat.decLe a.joined_at b.joined_at

instance : IsTotal MemberRow joinedAtLE := ⟨fun a b => Nat.le_total a.joined_at b.joined_at⟩

instance : IsTrans MemberRow joinedAtLE := ⟨fun _ _ _ => Nat.le_trans⟩

/-- The unsorted rows of `SELECT u.id, u.name, u.email, u.profile_picture,
uc.joined_at FROM users u JOIN user_communities uc ON u.id = uc.user_id
WHERE uc.community_id = :communityId`: each membership row of the
community joined with its user row. -/
def memberRowsUnsorted (st : Store) (communityId : Nat) : List MemberRow :=
  (st.user_communities.filter (fun m => m.community_id == communityId)).filterMap
    (fun m => (st.users.find? (fun u => u.id == m.user_id)).map
      (fun u => ⟨u.id, u.name, u.email, u.profile_picture, m.joined_at⟩))

/-- The member-list query including its `ORDER BY uc.joined_at ASC`. -/
def memberRowsSorted (st : Store) (communityId : Nat) : List MemberRow :=
  (memberRowsUnsorted st communityId).insertionSort joinedAtLE

/-- `createCommunity(req, res)`: 403 unless `req.user.role === 'admin'`,
400 if `!name`, otherwise persists the community (the database assigns
`newId`) and returns it with 201.  Storage call 0 is `Community.create`. -/
def createCommunity (st : Store) (caller : Caller)
    (name language description : Option String) (newId : Nat)
    (failAt : Option Nat) : HResult :=
  if caller.role ≠ "admin" then
    ⟨⟨403, .errorObj "Only admins can create communities"⟩, st⟩
  else if name = none ∨ name = some "" then
    ⟨⟨400, .errorObj "Community name is required"⟩, st⟩
  else if failAt = some 0 then
    ⟨⟨500, internalErrorBody⟩, st⟩
  else
    let c : Community := ⟨newId, name.getD "", language, description⟩
    ⟨⟨201, .communityObj c⟩, { st with communities := st.communities ++ [c] }⟩

/-- `getAllCommunities(req, res)`: every `communities` row with 200.
Storage call 0 is `Community.findAll`. -/
def getAllCommunities (st : Store) (failAt : Option Nat) : HResult :=
  if failAt = some 0 then ⟨⟨500, internalErrorBody⟩, st⟩
  else ⟨⟨200, .communityList st.communities⟩, st⟩

/-- `getCommunityById(req, res)`: 404 when `Community.findByPk` finds
nothing, otherwise the stored row with 200.  Storage call 0 is the
`findByPk`. -/
def getCommunityById (st : Store) (communityId : Nat) (failAt : Option Nat) : HResult :=
  if failAt = some 0 then ⟨⟨500, internalErrorBody⟩, st⟩
  else match findByPk st communityId with
    | none => ⟨⟨404, .errorObj "Community not found"⟩, st⟩
    | some c => ⟨⟨200, .communityObj c⟩, st⟩

/-- `joinCommunity(req, res)`: reads `req.user.id` and `req.params.id`,
404s when the community does not exist, ensures the membership schema,
then performs the conflict-tolerant insert and returns 200.  Storage
call 0 is `findByPk`, call 1 is `createUserCommunityModel`, call 2 is the
insert. -/
def joinCommunity (st : Store) (userId communityId now : Nat)
    (failAt : Option Nat) : HResult :=
  if failAt = some 0 then ⟨⟨500, internalErrorBody⟩, st⟩
  else match findByPk st communityId with
    | none => ⟨⟨404, .errorObj "Community not found"⟩, st⟩
    | some _ =>
      if failAt = some 1 ∨ failAt = some 2 then ⟨⟨500, internalErrorBody⟩, st⟩
      else ⟨⟨200, .messageObj "Successfully joined community"⟩,
            insertMembershipIfAbsent st userId communityId now⟩

/-- `leaveCommunity(req, res)`: reads `req.user.id` and `req.params.id`,
ensures the membership schema, deletes the membership, and 404s with
`'Membership not found'` when zero rows were affected; no community
existence check is performed.  Storage call 0 is
`createUserCommunityModel`, call 1 is the delete. -/
def leaveCommunity (st : Store) (userId communityId : Nat)
    (failAt : Option Nat) : HResult :=
  if failAt = some 0 ∨ failAt = some 1 then ⟨⟨500, internalErrorBody⟩, st⟩
  else
    let r := deleteMembership st userId communityId
    if r.2 = 0 then ⟨⟨404, .errorObj "Membership not found"⟩, r.1⟩
    else ⟨⟨200, .messageObj "Successfully left community"⟩, r.1⟩

/-- `getCommunityMembers(req, res)`: 404 when the community does not
exist, otherwise ensures the schema and returns the member rows ordered
by `joined_at` ascending with 200.  Storage call 0 is `findByPk`, call 1
is `createUserCommunityModel`, call 2 is the select. -/
def getCommunityMembers (st : Store) (communityId : Nat)
    (failAt : Option Nat) : HResult :=
  if failAt = some 0 then ⟨⟨500, internalErrorBody⟩, st⟩
  else match findByPk st communityId with
    | none => ⟨⟨404, .errorObj "Community not found"⟩, st⟩
    | some _ =>
      if failAt = some 1 ∨ failAt = some 2 then ⟨⟨500, internalErrorBody⟩, st⟩
      else ⟨⟨200, .memberList (memberRowsSorted st communityId)⟩, st⟩

/-- `getUserCommunities(req, res)`: ensures the schema, then returns
`SELECT c.* FROM communities c JOIN user_communities uc ON c.id =
uc.community_id WHERE uc.user_id = :userId` with 200.  Storage call 0 is
`createUserCommunityModel`, call 1 is the select. -/
def getUserCommunities (st : Store) (userId : Nat) (failAt : Option Nat) : HResult :=
  if failAt = some 0 ∨ failAt = some 1 then ⟨⟨500, internalErrorBody⟩, st⟩
  else ⟨⟨200, .communityList
        ((st.user_communities.filter (fun m => m.user_id == userId)).filterMap
          (fun m => st.communities.find? (fun c => c.id == m.community_id)))⟩, st⟩

/-- A concrete community used to instantiate the theorems. -/
def demoCommunity : Community := ⟨1, "Rustaceans", some "rust", none⟩

/-- A concrete store with one community, three users and no memberships. -/
def demoStore : Store :=
  ⟨[demoCommunity], [],
   [⟨1, "Alice", "alice@example.com", none⟩,
    ⟨2, "Bob", "bob@example.com", none⟩,
    ⟨3, "Cara", "cara@example.com", none⟩]⟩

/-- A concrete store whose memberships were inserted out of `joined_at`
order: Cara at time 30, Alice at time 10, Bob at time 20. -/
def demoStoreJoined : Store :=
  ⟨[demoCommunity], [⟨3, 1, 30⟩, ⟨1, 1, 10⟩, ⟨2, 1, 20⟩],
   [⟨1, "Alice", "alice@example.com", none⟩,
    ⟨2, "Bob", "bob@example.com", none⟩,
    ⟨3, "Cara", "cara@example.com", none⟩]⟩

/-- A store with a dangling community id 5 absent: used to exercise
not-found paths. -/
def demoStoreEmpty : Store := ⟨[], [], []⟩

/-- A serialization of concurrent `joinCommunity` requests for one
(user, community) pair: since the controller's only write is the single
atomic `INSERT ... ON CONFLICT DO NOTHING` statement, any interleaving
of the concurrent requests is equivalent to running them in some order,
one database timestamp per request.  Returns the final store and the
list of responses. -/
def runJoins (u c : Nat) : Store → List Nat → Store × List Response
  | st, [] => (st, [])
  | st, t :: ts =>
    let r := joinCommunity st u c t none
    let p := runJoins u c r.store ts
    (p.1, r.resp :: p.2)

/-- The error-shape contract of §7: every 400/403/404/500 response body
is a single-field `\x7b error: ... \x7d` object, and every 500 carries
exactly `'Internal server error'`. -/
def respIsErrorShaped (r : HResult) : Prop :=
  ((r.resp.status = 400 ∨ r.resp.status = 403 ∨ r.resp.status = 404 ∨
      r.resp.status = 500) → ∃ msg, r.resp.body = Body.errorObj msg) ∧
  (r.resp.status = 500 → r.resp.body = internalErrorBody)

section Lemmas

lemma matchesPair_iff {u c : Nat} {m : Membership} :
    matchesPair u c m = true ↔ m.user_id = u ∧ m.community_id = c := by
  simp [matchesPair]

lemma membershipCount_eq_zero_iff {st : Store} {u c : Nat} :
    membershipCount st u c = 0 ↔ ∀ m ∈ st.user_communities, ¬(matchesPair u c m = true) := by
  simp [membershipCount, pairRows, List.length_eq_zero, List.filter_eq_nil_iff]

lemma insertMembershipIfAbsent_communities (st : Store) (u c t : Nat) :
    (insertMembershipIfAbsent st u c t).communities = st.communities := by
  unfold insertMembershipIfAbsent
  split <;> rfl

lemma insertMembershipIfAbsent_users (st : Store) (u c t : Nat) :
    (insertMembershipIfAbsent st u c t).users = st.users := by
  unfold insertMembershipIfAbsent
  split <;> rfl

lemma membershipCount_insert (st : Store) (u c t : Nat) :
    membershipCount (insertMembershipIfAbsent st u c t) u c =
      if membershipCount st u c = 0 then 1 else membershipCount st u c := by
  unfold insertMembershipIfAbsent
  by_cases h : st.user_communities.any (matchesPair u c) = true
  · rw [if_pos h]
    have hne : membershipCount st u c ≠ 0 := by
      intro hz
      obtain ⟨m, hm, hp⟩ := List.any_eq_true.mp h
      exact (membershipCount_eq_zero_iff.mp hz) m hm hp
    rw [if_neg hne]
  · rw [if_neg h]
    have hz : membershipCount st u c = 0 := by
      rw [membershipCount_eq_zero_iff]
      intro m hm hp
      exact h (List.any_eq_true.mpr ⟨m, hm, hp⟩)
    rw [if_pos hz]
    have hnil : List.filter (matchesPair u c) st.user_communities = [] := by
      rw [List.filter_eq_nil_iff]
      exact membershipCount_eq_zero_iff.mp hz
    simp only [membershipCount, pairRows]
    rw [List.filter_append, hnil]
    simp [matchesPair]

lemma findByPk_congr {st st' : Store} (h : st.communities = st'.communities) (cid : Nat) :
    findByPk st cid = findByPk st' cid := by
  unfold findByPk
  rw [h]

lemma joinCommunity_success (st : Store) (u c t : Nat)
    (hex : (findByPk st c).isSome = true) :
    joinCommunity st u c t none =
      ⟨⟨200, .messageObj "Successfully joined community"⟩,
       insertMembershipIfAbsent st u c t⟩ := by
  unfold joinCommunity
  rw [if_neg (by simp)]
  obtain ⟨comm, hc⟩ := Option.isSome_iff_exists.mp hex
  rw [hc]
  simp

lemma membershipCount_delete (st : Store) (u c : Nat) :
    membershipCount (deleteMembership st u c).1 u c = 0 := by
  simp only [membershipCount, pairRows, deleteMembership]
  rw [List.length_eq_zero, List.filter_eq_nil_iff]
  intro m hm
  have h2 := (List.mem_filter.mp hm).2
  simp only [Bool.not_eq_true'] at h2
  simp [h2]

lemma leaveCommunity_eq_notFound (st : Store) (u c : Nat)
    (hz : membershipCount st u c = 0) :
    leaveCommunity st u c none =
      ⟨⟨404, .errorObj "Membership not found"⟩, (deleteMembership st u c).1⟩ := by
  simp [leaveCommunity, deleteMembership, hz]

lemma leaveCommunity_eq_found (st : Store) (u c : Nat)
    (hz : membershipCount st u c ≠ 0) :
    leaveCommunity st u c none =
      ⟨⟨200, .messageObj "Successfully left community"⟩, (deleteMembership st u c).1⟩ := by
  simp [leaveCommunity, deleteMembership, hz]

lemma pairRows_filter_not (l : List Membership) (u c u' c' : Nat)
    (h : ¬(u' = u ∧ c' = c)) :
    (l.filter (fun m => !(matchesPair u c m))).filter (matchesPair u' c') =
      l.filter (matchesPair u' c') := by
  induction l with
  | nil => rfl
  | cons m l ih =>
    by_cases hm : matchesPair u c m = true
    · have hm' : matchesPair u' c' m = false := by
        rw [Bool.eq_false_iff]
        intro ht
        rcases matchesPair_iff.mp hm with ⟨h1, h2⟩
        rcases matchesPair_iff.mp ht with ⟨h1', h2'⟩
        exact h ⟨h1'.symm.trans h1, h2'.symm.trans h2⟩
      simp [List.filter_cons, hm, hm', ih]
    · simp [List.filter_cons, hm, ih]

lemma matchesPair_new_false {u c t u' c' : Nat} (h : ¬(u' = u ∧ c' = c)) :
    matchesPair u' c' ⟨u, c, t⟩ = false := by
  rw [Bool.eq_false_iff]
  intro ht
  rcases matchesPair_iff.mp ht with ⟨h1, h2⟩
  exact h ⟨h1.symm, h2.symm⟩

lemma pairRows_insert_frame (st : Store) (u c t u' c' : Nat)
    (h : ¬(u' = u ∧ c' = c)) :
    pairRows (insertMembershipIfAbsent st u c t) u' c' = pairRows st u' c' := by
  unfold insertMembershipIfAbsent pairRows
  split
  · rfl
  · rw [List.filter_append]
    simp [matchesPair_new_false h]

lemma pairRows_delete_frame (st : Store) (u c u' c' : Nat)
    (h : ¬(u' = u ∧ c' = c)) :
    pairRows (deleteMembership st u c).1 u' c' = pairRows st u' c' := by
  unfold deleteMembership pairRows
  exact pairRows_filter_not st.user_communities u c u' c' h

lemma joinCommunity_store_cases (st : Store) (u c t : Nat) (failAt : Option Nat) :
    (joinCommunity st u c t failAt).store = st ∨
    (joinCommunity st u c t failAt).store = insertMembershipIfAbsent st u c t := by
  unfold joinCommunity
  split
  · exact Or.inl rfl
  · split
    · exact Or.inl rfl
    · split
      · exact Or.inl rfl
      · exact Or.inr rfl

lemma leaveCommunity_store_cases (st : Store) (u c : Nat) (failAt : Option Nat) :
    (leaveCommunity st u c failAt).store = st ∨
    (leaveCommunity st u c failAt).store = (deleteMembership st u c).1 := by
  unfold leaveCommunity
  split
  · exact Or.inl rfl
  · dsimp only
    split
    · exact Or.inr rfl
    · exact Or.inr rfl

lemma runJoins_invariant (u c : Nat) (ts : List Nat) (st : Store)
    (hex : (findByPk st c).isSome = true) (h1 : membershipCount st u c = 1) :
    membershipCount (runJoins u c st ts).1 u c = 1 ∧
    ∀ r ∈ (runJoins u c st ts).2,
      r = ⟨200, .messageObj "Successfully joined community"⟩ := by
  induction ts generalizing st with
  | nil => exact ⟨h1, by simp [runJoins]⟩
  | cons t ts ih =>
    have hs := joinCommunity_success st u c t hex
    have e1s : (joinCommunity st u c t none).store =
        insertMembershipIfAbsent st u c t := by rw [hs]
    have e1r : (joinCommunity st u c t none).resp =
        ⟨200, .messageObj "Successfully joined community"⟩ := by rw [hs]
    have hex' : (findByPk (joinCommunity st u c t none).store c).isSome = true := by
      rw [e1s, findByPk_congr (insertMembershipIfAbsent_communities st u c t) c]
      exact hex
    have h1' : membershipCount (joinCommunity st u c t none).store u c = 1 := by
      rw [e1s, membershipCount_insert, h1]
      simp
    have hrec := ih (joinCommunity st u c t none).store hex' h1'
    simp only [runJoins]
    refine ⟨hrec.1, ?_⟩
    intro r hr
    rcases List.mem_cons.mp hr with h | h
    · rw [h, e1r]
    · exact hrec.2 r h

lemma respIsErrorShaped_error (st : Store) (code : Nat) (msg : String)
    (h : code = 500 → msg = "Internal server error") :
    respIsErrorShaped ⟨⟨code, .errorObj msg⟩, st⟩ := by
  refine ⟨fun _ => ⟨msg, rfl⟩, fun h500 => ?_⟩
  rw [h h500]
  rfl

lemma respIsErrorShaped_ok (st : Store) (code : Nat) (b : Body)
    (h1 : code ≠ 400) (h2 : code ≠ 403) (h3 : code ≠ 404) (h4 : code ≠ 500) :
    respIsErrorShaped ⟨⟨code, b⟩, st⟩ := by
  refine ⟨fun h => ?_, fun h => absurd h h4⟩
  rcases h with h | h | h | h
  exacts [absurd h h1, absurd h h2, absurd h h3, absurd h h4]

end Lemmas

/-- C1: for every store whose membership table respects the unique
`(user_id, community_id)` constraint at this pair (at most one row) and
whose `communities` table contains the community, joining twice with the
same (user, community) pair returns the 200 success message
`'Successfully joined community'` both times and leaves exactly one
membership row for the pair. -/
theorem joinCommunity_idempotent (st : Store) (u c t1 t2 : Nat)
    (hex : (findByPk st c).isSome = true)
    (h0 : membershipCount st u c ≤ 1) :
    (joinCommunity st u c t1 none).resp =
      ⟨200, .messageObj "Successfully joined community"⟩ ∧
    (joinCommunity (joinCommunity st u c t1 none).store u c t2 none).resp =
      (joinCommunity st u c t1 none).resp ∧
    membershipCount
      (joinCommunity (joinCommunity st u c t1 none).store u c t2 none).store u c = 1 := by
  have h1 := joinCommunity_success st u c t1 hex
  have e1r : (joinCommunity st u c t1 none).resp =
      ⟨200, .messageObj "Successfully joined community"⟩ := by rw [h1]
  have e1s : (joinCommunity st u c t1 none).store =
      insertMembershipIfAbsent st u c t1 := by rw [h1]
  have hex2 : (findByPk (insertMembershipIfAbsent st u c t1) c).isSome = true := by
    rw [findByPk_congr (insertMembershipIfAbsent_communities st u c t1) c]
    exact hex
  have h2 := joinCommunity_success (insertMembershipIfAbsent st u c t1) u c t2 hex2
  have e2r : (joinCommunity (joinCommunity st u c t1 none).store u c t2 none).resp =
      ⟨200, .messageObj "Successfully joined community"⟩ := by rw [e1s, h2]
  have e2s : (joinCommunity (joinCommunity st u c t1 none).store u c t2 none).store =
      insertMembershipIfAbsent (insertMembershipIfAbsent st u c t1) u c t2 := by
    rw [e1s, h2]
  refine ⟨e1r, by rw [e2r, e1r], ?_⟩
  rw [e2s, membershipCount_insert, membershipCount_insert]
  rcases Nat.le_one_iff_eq_zero_or_eq_one.mp h0 with h | h <;> simp [h]

/-- C1 witness: in the demo store, user 2 joins community 1 twice; both
responses are the 200 success message and exactly one membership row for
the pair remains. -/
theorem joinCommunity_idempotent_witness :
    (joinCommunity demoStore 2 1 10 none).resp =
      ⟨200, .messageObj "Successfully joined community"⟩ ∧
    (joinCommunity (joinCommunity demoStore 2 1 10 none).store 2 1 20 none).resp =
      (joinCommunity demoStore 2 1 10 none).resp ∧
    membershipCount
      (joinCommunity (joinCommunity demoStore 2 1 10 none).store 2 1 20 none).store 2 1 = 1 :=
  joinCommunity_idempotent demoStore 2 1 10 20 (by decide) (by decide)

/-- C2: `leaveCommunity` responds 404 exactly when no membership row for
the (user, community) pair exists; when the 404 is taken the body is
`\x7b error: 'Membership not found' \x7d`; when a membership exists the
call responds 200 `'Successfully left community'` and afterwards no
membership row for the pair remains. -/
theorem leaveCommunity_spec (st : Store) (u c : Nat) :
    ((leaveCommunity st u c none).resp.status = 404 ↔ membershipCount st u c = 0) ∧
    (membershipCount st u c = 0 →
      (leaveCommunity st u c none).resp = ⟨404, .errorObj "Membership not found"⟩) ∧
    (membershipCount st u c ≠ 0 →
      (leaveCommunity st u c none).resp = ⟨200, .messageObj "Successfully left community"⟩ ∧
      membershipCount (leaveCommunity st u c none).store u c = 0) := by
  by_cases hz : membershipCount st u c = 0
  · have e := leaveCommunity_eq_notFound st u c hz
    refine ⟨⟨fun _ => hz, fun _ => by rw [e]⟩, fun _ => by rw [e], fun hn => absurd hz hn⟩
  · have e := leaveCommunity_eq_found st u c hz
    refine ⟨⟨fun h4 => ?_, fun h0 => absurd h0 hz⟩, fun h0 => absurd h0 hz,
            fun _ => ⟨by rw [e], ?_⟩⟩
    · rw [e] at h4
      simp at h4
    · have es : (leaveCommunity st u c none).store = (deleteMembership st u c).1 := by
        rw [e]
      rw [es]
      exact membershipCount_delete st u c

/-- C2 witness: in the joined demo store user 1 leaves community 1 with a
200 and no row remains; in the empty-membership demo store the same call
is a 404 `'Membership not found'`. -/
theorem leaveCommunity_spec_witness :
    ((leaveCommunity demoStoreJoined 1 1 none).resp =
        ⟨200, .messageObj "Successfully left community"⟩ ∧
      membershipCount (leaveCommunity demoStoreJoined 1 1 none).store 1 1 = 0) ∧
    (leaveCommunity demoStore 1 1 none).resp = ⟨404, .errorObj "Membership not found"⟩ :=
  ⟨(leaveCommunity_spec demoStoreJoined 1 1).2.2 (by decide),
   (leaveCommunity_spec demoStore 1 1).2.1 (by decide)⟩

/-- C3: `createCommunity` responds 403 `'Only admins can create
communities'` for every caller whose role is not `'admin'`, and 400
`'Community name is required'` for every admin caller with a missing or
empty name; in both cases the store is returned unchanged, and the
result does not depend on `failAt`, i.e. both checks happen before any
storage call (even a failing `Community.create` is never reached). -/
theorem createCommunity_rejects (st : Store) (caller : Caller)
    (name language description : Option String) (newId : Nat) (failAt : Option Nat) :
    (caller.role ≠ "admin" →
      createCommunity st caller name language description newId failAt =
        ⟨⟨403, .errorObj "Only admins can create communities"⟩, st⟩) ∧
    (caller.role = "admin" → (name = none ∨ name = some "") →
      createCommunity st caller name language description newId failAt =
        ⟨⟨400, .errorObj "Community name is required"⟩, st⟩) := by
  constructor
  · intro h
    simp [createCommunity, h]
  · intro hr hn
    simp [createCommunity, hr, hn]

/-- C3 witness: a non-admin caller gets the 403 and an admin caller with
no name gets the 400, both with the store unchanged, both with a
`failAt` that would make the storage call fail if it were reached. -/
theorem createCommunity_rejects_witness :
    createCommunity demoStore ⟨7, "user"⟩ (some "X") none none 9 (some 0) =
      ⟨⟨403, .errorObj "Only admins can create communities"⟩, demoStore⟩ ∧
    createCommunity demoStore ⟨7, "admin"⟩ none none none 9 (some 0) =
      ⟨⟨400, .errorObj "Community name is required"⟩, demoStore⟩ :=
  ⟨(createCommunity_rejects demoStore ⟨7, "user"⟩ (some "X") none none 9 (some 0)).1
      (by decide),
   (createCommunity_rejects demoStore ⟨7, "admin"⟩ none none none 9 (some 0)).2
      rfl (Or.inl rfl)⟩

/-- C5: when no community with the requested id exists, `joinCommunity`
responds 404 `'Community not found'` and the store — in particular the
membership table — is unchanged; this holds for every `failAt` other
than a failing `findByPk`, including `some 2` where the insert itself
would throw, so the existence check precedes the insert and the insert
is never reached. -/
theorem joinCommunity_notFound (st : Store) (u cid now : Nat) (failAt : Option Nat)
    (h : findByPk st cid = none) (hf : failAt ≠ some 0) :
    joinCommunity st u cid now failAt = ⟨⟨404, .errorObj "Community not found"⟩, st⟩ := by
  simp [joinCommunity, h, hf]

/-- C5 witness: joining the absent community 5 in the demo store responds
404 and leaves the store unchanged even when the insert would fail. -/
theorem joinCommunity_notFound_witness :
    joinCommunity demoStore 1 5 10 (some 2) =
      ⟨⟨404, .errorObj "Community not found"⟩, demoStore⟩ :=
  joinCommunity_notFound demoStore 1 5 10 (some 2) rfl (by decide)

/-- C6: `getCommunityById` responds 404 `'Community not found'` when no
community with the id exists, and otherwise 200 with exactly the stored
row (its `id`, `name`, `language`, `description`); the store is
unchanged in both cases. -/
theorem getCommunityById_spec (st : Store) (cid : Nat) :
    (findByPk st cid = none →
      getCommunityById st cid none = ⟨⟨404, .errorObj "Community not found"⟩, st⟩) ∧
    (∀ comm, findByPk st cid = some comm →
      getCommunityById st cid none = ⟨⟨200, .communityObj comm⟩, st⟩) := by
  constructor
  · intro h
    simp [getCommunityById, h]
  · intro comm h
    simp [getCommunityById, h]

/-- C6 witness: fetching the absent id 5 responds 404 and fetching id 1
responds 200 with the stored demo community. -/
theorem getCommunityById_spec_witness :
    getCommunityById demoStore 5 none = ⟨⟨404, .errorObj "Community not found"⟩, demoStore⟩ ∧
    getCommunityById demoStore 1 none = ⟨⟨200, .communityObj demoCommunity⟩, demoStore⟩ :=
  ⟨(getCommunityById_spec demoStore 5).1 rfl,
   (getCommunityById_spec demoStore 1).2 demoCommunity rfl⟩

/-- C4: for every existing community, `getCommunityMembers` responds 200
with the member rows — each user joined to the community together with
its `joined_at` timestamp — sorted ascending by `joined_at`: the
returned list is a permutation of the raw joined rows and is sorted, so
members joined at times T1 < T2 < T3 come out in that order whatever the
insertion order was. -/
theorem getCommunityMembers_sorted (st : Store) (cid : Nat)
    (hex : (findByPk st cid).isSome = true) :
    (getCommunityMembers st cid none).resp =
      ⟨200, .memberList (memberRowsSorted st cid)⟩ ∧
    (getCommunityMembers st cid none).store = st ∧
    (memberRowsSorted st cid).Sorted joinedAtLE ∧
    (memberRowsSorted st cid).Perm (memberRowsUnsorted st cid) := by
  obtain ⟨comm, hc⟩ := Option.isSome_iff_exists.mp hex
  refine ⟨by simp [getCommunityMembers, hc], by simp [getCommunityMembers, hc], ?_, ?_⟩
  · unfold memberRowsSorted
    exact List.sorted_insertionSort joinedAtLE _
  · unfold memberRowsSorted
    exact List.perm_insertionSort joinedAtLE _

/-- C4 witness: in the demo store whose memberships were inserted in the
order (Cara, 30), (Alice, 10), (Bob, 20), the member list of community 1
comes back with `joined_at` values `[10, 20, 30]`. -/
theorem getCommunityMembers_sorted_witness :
    ((getCommunityMembers demoStoreJoined 1 none).resp =
        ⟨200, .memberList (memberRowsSorted demoStoreJoined 1)⟩ ∧
      (getCommunityMembers demoStoreJoined 1 none).store = demoStoreJoined ∧
      (memberRowsSorted demoStoreJoined 1).Sorted joinedAtLE ∧
      (memberRowsSorted demoStoreJoined 1).Perm (memberRowsUnsorted demoStoreJoined 1)) ∧
    (memberRowsSorted demoStoreJoined 1).map MemberRow.joined_at = [10, 20, 30] :=
  ⟨getCommunityMembers_sorted demoStoreJoined 1 (by decide), by decide⟩

/-- C9: on a store satisfying the referential-integrity invariant (every
membership points at an existing community), calling `leaveCommunity`
with a community id that does not exist responds 404 `'Membership not
found'` — the membership-absent error, since `leaveCommunity` performs
no `findByPk` existence lookup — while `joinCommunity` and
`getCommunityMembers` on the same id respond 404 `'Community not
found'` from their up-front existence checks. -/
theorem leaveCommunity_no_existence_check (st : Store) (u cid now : Nat)
    (hfk : ∀ m ∈ st.user_communities, ∃ comm ∈ st.communities, comm.id = m.community_id)
    (hnc : findByPk st cid = none) :
    (leaveCommunity st u cid none).resp = ⟨404, .errorObj "Membership not found"⟩ ∧
    (joinCommunity st u cid now none).resp = ⟨404, .errorObj "Community not found"⟩ ∧
    (getCommunityMembers st cid none).resp = ⟨404, .errorObj "Community not found"⟩ := by
  have hnc' := hnc
  unfold findByPk at hnc'
  have hall := List.find?_eq_none.mp hnc'
  have hz : membershipCount st u cid = 0 := by
    rw [membershipCount_eq_zero_iff]
    intro m hm hp
    obtain ⟨_, hcid⟩ := matchesPair_iff.mp hp
    obtain ⟨comm, hcm, hid⟩ := hfk m hm
    exact hall comm hcm (by simp [hid, hcid])
  refine ⟨by rw [leaveCommunity_eq_notFound st u cid hz], ?_, ?_⟩
  · simp [joinCommunity, hnc]
  · simp [getCommunityMembers, hnc]

/-- C9 witness: in a store with one community (id 1) and one membership
of it, community id 5 does not exist; leaving it is 404 `'Membership not
found'` while joining it and listing its members are 404 `'Community not
found'`. -/
theorem leaveCommunity_no_existence_check_witness :
    (leaveCommunity demoStoreJoined 1 5 none).resp =
      ⟨404, .errorObj "Membership not found"⟩ ∧
    (joinCommunity demoStoreJoined 1 5 99 none).resp =
      ⟨404, .errorObj "Community not found"⟩ ∧
    (getCommunityMembers demoStoreJoined 5 none).resp =
      ⟨404, .errorObj "Community not found"⟩ :=
  leaveCommunity_no_existence_check demoStoreJoined 1 5 99 (by decide) rfl

/-- C10: `joinCommunity` and `leaveCommunity` — whose user and community
ids the controller reads from `req.user.id` and `req.params.id`, never
from the request body — only touch the `user_communities` rows of the
caller's own (user, community) pair: on every execution path, including
storage failures, the `communities` table, the `users` table, and the
membership rows of every other (user, community) pair are unchanged. -/
theorem joinCommunity_leaveCommunity_frame (st : Store) (u c t : Nat)
    (failAt : Option Nat) :
    ((joinCommunity st u c t failAt).store.communities = st.communities ∧
     (joinCommunity st u c t failAt).store.users = st.users ∧
     ∀ u' c', ¬(u' = u ∧ c' = c) →
       pairRows (joinCommunity st u c t failAt).store u' c' = pairRows st u' c') ∧
    ((leaveCommunity st u c failAt).store.communities = st.communities ∧
     (leaveCommunity st u c failAt).store.users = st.users ∧
     ∀ u' c', ¬(u' = u ∧ c' = c) →
       pairRows (leaveCommunity st u c failAt).store u' c' = pairRows st u' c') := by
  constructor
  · rcases joinCommunity_store_cases st u c t failAt with h | h
    · rw [h]
      exact ⟨rfl, rfl, fun _ _ _ => rfl⟩
    · rw [h]
      exact ⟨insertMembershipIfAbsent_communities st u c t,
             insertMembershipIfAbsent_users st u c t,
             fun u' c' hne => pairRows_insert_frame st u c t u' c' hne⟩
  · rcases leaveCommunity_store_cases st u c failAt with h | h
    · rw [h]
      exact ⟨rfl, rfl, fun _ _ _ => rfl⟩
    · rw [h]
      exact ⟨rfl, rfl, fun u' c' hne => pairRows_delete_frame st u c u' c' hne⟩

/-- C10 witness: user 2 joining community 1 leaves user 1's membership
rows of community 1 untouched, and user 1 leaving community 1 leaves
user 3's rows untouched. -/
theorem joinCommunity_leaveCommunity_frame_witness :
    pairRows (joinCommunity demoStoreJoined 2 1 40 none).store 1 1 =
      pairRows demoStoreJoined 1 1 ∧
    pairRows (leaveCommunity demoStoreJoined 1 1 none).store 3 1 =
      pairRows demoStoreJoined 3 1 :=
  ⟨(joinCommunity_leaveCommunity_frame demoStoreJoined 2 1 40 none).1.2.2 1 1 (by decide),
   (joinCommunity_leaveCommunity_frame demoStoreJoined 1 1 40 none).2.2.2 3 1 (by decide)⟩

/-- C7: the controller's only membership write is the single atomic
`INSERT ... ON CONFLICT (user_id, community_id) DO NOTHING` statement,
so concurrent join requests for one (user, community) pair serialize
into some order of atomic steps; for every such serialization (any
number of requests, any database timestamps) against a store holding
the community and respecting the uniqueness constraint, every request
responds with the 200 success message — no errors — and exactly one
membership row for the pair remains — no duplicates. -/
theorem joinCommunity_concurrent_atomic (st : Store) (u c : Nat) (times : List Nat)
    (hex : (findByPk st c).isSome = true)
    (h0 : membershipCount st u c ≤ 1)
    (hne : times ≠ []) :
    membershipCount (runJoins u c st times).1 u c = 1 ∧
    ∀ r ∈ (runJoins u c st times).2,
      r = ⟨200, .messageObj "Successfully joined community"⟩ := by
  cases times with
  | nil => exact absurd rfl hne
  | cons t ts =>
    have hs := joinCommunity_success st u c t hex
    have e1s : (joinCommunity st u c t none).store =
        insertMembershipIfAbsent st u c t := by rw [hs]
    have e1r : (joinCommunity st u c t none).resp =
        ⟨200, .messageObj "Successfully joined community"⟩ := by rw [hs]
    have hex' : (findByPk (joinCommunity st u c t none).store c).isSome = true := by
      rw [e1s, findByPk_congr (insertMembershipIfAbsent_communities st u c t) c]
      exact hex
    have h1' : membershipCount (joinCommunity st u c t none).store u c = 1 := by
      rw [e1s, membershipCount_insert]
      rcases Nat.le_one_iff_eq_zero_or_eq_one.mp h0 with h | h <;> simp [h]
    have hrec := runJoins_invariant u c ts (joinCommunity st u c t none).store hex' h1'
    simp only [runJoins]
    refine ⟨hrec.1, ?_⟩
    intro r hr
    rcases List.mem_cons.mp hr with h | h
    · rw [h, e1r]
    · exact hrec.2 r h

/-- C7 witness: three interleaved joins of user 2 into community 1 all
respond 200 and leave a single membership row. -/
theorem joinCommunity_concurrent_atomic_witness :
    membershipCount (runJoins 2 1 demoStore [5, 6, 7]).1 2 1 = 1 ∧
    ∀ r ∈ (runJoins 2 1 demoStore [5, 6, 7]).2,
      r = ⟨200, .messageObj "Successfully joined community"⟩ :=
  joinCommunity_concurrent_atomic demoStore 2 1 [5, 6, 7]
    (by decide) (by decide) (by decide)

/-- C8: for every handler, every input, and every failure schedule, each
400/403/404/500 response carries a single-field `\x7b error: ... \x7d`
body, and every 500 — the status produced exactly by the `catch` block
around the storage calls — carries the fixed message
`'Internal server error'`, leaking no storage-layer detail. -/
theorem error_responses_uniform (st : Store) (caller : Caller)
    (name language description : Option String) (newId u cid now : Nat)
    (failAt : Option Nat) :
    respIsErrorShaped (createCommunity st caller name language description newId failAt) ∧
    respIsErrorShaped (getAllCommunities st failAt) ∧
    respIsErrorShaped (getCommunityById st cid failAt) ∧
    respIsErrorShaped (joinCommunity st u cid now failAt) ∧
    respIsErrorShaped (leaveCommunity st u cid failAt) ∧
    respIsErrorShaped (getCommunityMembers st cid failAt) ∧
    respIsErrorShaped (getUserCommunities st u failAt) := by
  refine ⟨?_, ?_, ?_, ?_, ?_, ?_, ?_⟩
  · unfold createCommunity
    split
    · exact respIsErrorShaped_error _ _ _ (by intro h; omega)
    · split
      · exact respIsErrorShaped_error _ _ _ (by intro h; omega)
      · split
        · exact respIsErrorShaped_error _ _ _ (fun _ => rfl)
        · exact respIsErrorShaped_ok _ _ _ (by omega) (by omega) (by omega) (by omega)
  · unfold getAllCommunities
    split
    · exact respIsErrorShaped_error _ _ _ (fun _ => rfl)
    · exact respIsErrorShaped_ok _ _ _ (by omega) (by omega) (by omega) (by omega)
  · unfold getCommunityById
    split
    · exact respIsErrorShaped_error _ _ _ (fun _ => rfl)
    · split
      · exact respIsErrorShaped_error _ _ _ (by intro h; omega)
      · exact respIsErrorShaped_ok _ _ _ (by omega) (by omega) (by omega) (by omega)
  · unfold joinCommunity
    split
    · exact respIsErrorShaped_error _ _ _ (fun _ => rfl)
    · split
      · exact respIsErrorShaped_error _ _ _ (by intro h; omega)
      · split
        · exact respIsErrorShaped_error _ _ _ (fun _ => rfl)
        · exact respIsErrorShaped_ok _ _ _ (by omega) (by omega) (by omega) (by omega)
  · unfold leaveCommunity
    split
    · exact respIsErrorShaped_error _ _ _ (fun _ => rfl)
    · dsimp only
      split
      · exact respIsErrorShaped_error _ _ _ (by intro h; omega)
      · exact respIsErrorShaped_ok _ _ _ (by omega) (by omega) (by omega) (by omega)
  · unfold getCommunityMembers
    split
    · exact respIsErrorShaped_error _ _ _ (fun _ => rfl)
    · split
      · exact respIsErrorShaped_error _ _ _ (by intro h; omega)
      · split
        · exact respIsErrorShaped_error _ _ _ (fun _ => rfl)
        · exact respIsErrorShaped_ok _ _ _ (by omega) (by omega) (by omega) (by omega)
  · unfold getUserCommunities
    split
    · exact respIsErrorShaped_error _ _ _ (fun _ => rfl)
    · exact respIsErrorShaped_ok _ _ _ (by omega) (by omega) (by omega) (by omega)

/-- C8 witness: the error-shape contract instantiated at a concrete
store, caller and a failure schedule that makes the first storage call
of each handler throw. -/
theorem error_responses_uniform_witness :
    respIsErrorShaped (createCommunity demoStore ⟨7, "admin"⟩ (some "X") none none 9 (some 0)) ∧
    respIsErrorShaped (getAllCommunities demoStore (some 0)) ∧
    respIsErrorShaped (getCommunityById demoStore 5 (some 0)) ∧
    respIsErrorShaped (joinCommunity demoStore 1 1 10 (some 0)) ∧
    respIsErrorShaped (leaveCommunity demoStore 1 1 (some 0)) ∧
    respIsErrorShaped (getCommunityMembers demoStore 1 (some 0)) ∧
    respIsErrorShaped (getUserCommunities demoStore 1 (some 0)) :=
  error_responses_uniform demoStore ⟨7, "admin"⟩ (some "X") none none 9 1 1 10 (some 0)

end CircleConnect
